import Mathlib

/-!
Shallow embedding of the komodo-mcp-server transport layer, covering the
session-configuration validation module (src/server/session/core/schemas.ts),
the framework environment schema (src/server/config/env.ts) and the HTTP
server wiring (http-server.ts: createExpressApp, startHttpServer, shutdown).
The validation code is written against Zod 3; the embedding reproduces the
Zod combinator semantics the source relies on (ZodNumber with int/min/max
checks, ZodDefault, ZodOptional, strict objects, refinements).
-/

/-- JavaScript runtime values, as far as the validated surface observes them.
Finite numbers are modelled as rationals (every number the schemas accept is
an integer below 2 to the 53, hence exact); NaN is its own constructor
because Zod gives it the distinct parsed type nan and z.number() rejects it;
objects are association lists of string keys. -/
inductive JSValue where
  | num (q : ℚ)
  | nan
  | str (s : String)
  | boolean (b : Bool)
  | null
  | undef
  | obj (fields : List (String × JSValue))

/-- Validation limits for session configuration
(schemas.ts SESSION_CONFIG_LIMITS, lines 47 to 72), with the arithmetic kept
in the source's factored form. -/
structure SessionConfigLimits where
  MIN_TIMEOUT_MS : ℚ
  MAX_TIMEOUT_MS : ℚ
  MIN_CLEANUP_INTERVAL_MS : ℚ
  MAX_CLEANUP_INTERVAL_MS : ℚ
  MIN_KEEP_ALIVE_INTERVAL_MS : ℚ
  MAX_KEEP_ALIVE_INTERVAL_MS : ℚ
  MIN_MISSED_HEARTBEATS : ℚ
  MAX_MISSED_HEARTBEATS : ℚ
  MIN_SESSION_COUNT : ℚ
  MAX_SESSION_COUNT : ℚ

/-- Constant object SESSION_CONFIG_LIMITS of schemas.ts. The source writes
the three large bounds as the products 5 * 365 * 24 * 60 * 60 * 1000,
60 * 60 * 1000 and 5 * 60 * 1000; they are stored here as the evaluated
numerals (so that the kernel can compute with them) and the lemma
SESSION_CONFIG_LIMITS_products below re-establishes the factored forms. -/
def SESSION_CONFIG_LIMITS : SessionConfigLimits where
  MIN_TIMEOUT_MS := 60000
  MAX_TIMEOUT_MS := 157680000000
  MIN_CLEANUP_INTERVAL_MS := 10000
  MAX_CLEANUP_INTERVAL_MS := 3600000
  MIN_KEEP_ALIVE_INTERVAL_MS := 5000
  MAX_KEEP_ALIVE_INTERVAL_MS := 300000
  MIN_MISSED_HEARTBEATS := 1
  MAX_MISSED_HEARTBEATS := 100
  MIN_SESSION_COUNT := 1
  MAX_SESSION_COUNT := 10000

/-- Modelled from the spec: the default constants of
src/server/session/core/constants.ts, a file the repository snapshot does not
include under src/. The spec's configuration table (section 3) fixes the
timeout default at 1,800,000 ms, which also matches the environment schema's
30 * 60 * 1000 default in env.ts; for the remaining fields the spec says only
"implementation default", so those values are modelled as in-bounds
placeholders, and every theorem whose truth could depend on their exact
values quantifies over the defaults instead of using this record. -/
structure SessionDefaults where
  timeoutMs : ℚ
  cleanupIntervalMs : ℚ
  keepAliveIntervalMs : ℚ
  maxMissedHeartbeats : ℚ
  maxCount : ℚ

/-- Modelled from the spec: concrete instance of the default constants from
the missing constants.ts; DEFAULT_SESSION_TIMEOUT_MS = 1,800,000 is the
spec's stated default, the others are "implementation default" values chosen
inside the section 3 bounds. -/
def specDefaults : SessionDefaults where
  timeoutMs := 1800000
  cleanupIntervalMs := 60000
  keepAliveIntervalMs := 30000
  maxMissedHeartbeats := 3
  maxCount := 100

/-- Shape of each numeric field schema in schemas.ts, all of which read
z.number().int().min(lo).max(hi).default(d): the two bounds and the default
value determine the behaviour completely. -/
structure NumSchema where
  lo : ℚ
  hi : ℚ
  defaultValue : ℚ

/-- Checks of z.number().int().min(lo).max(hi) on a runtime value: only a
finite number passes the type test (NaN parses as type nan and is rejected),
and it must additionally be an integer (Number.isInteger, i.e. denominator 1)
lying in the closed interval from lo to hi. -/
def NumSchema.checks (s : NumSchema) : JSValue → Option ℚ
  | JSValue.num q => if q.den = 1 ∧ s.lo ≤ q ∧ q ≤ s.hi then some q else none
  | JSValue.nan => none
  | JSValue.str _ => none
  | JSValue.boolean _ => none
  | JSValue.null => none
  | JSValue.undef => none
  | JSValue.obj _ => none

/-- ZodDefault semantics of .default(d), the outermost wrapper of each field
schema: an undefined input is replaced by the default value, which then runs
through the inner checks; any other input is passed to the checks unchanged. -/
def NumSchema.parse (s : NumSchema) (v : JSValue) : Option ℚ :=
  match v with
  | JSValue.undef => s.checks (JSValue.num s.defaultValue)
  | JSValue.num q => s.checks (JSValue.num q)
  | JSValue.nan => s.checks JSValue.nan
  | JSValue.str s' => s.checks (JSValue.str s')
  | JSValue.boolean b => s.checks (JSValue.boolean b)
  | JSValue.null => s.checks JSValue.null
  | JSValue.obj fields => s.checks (JSValue.obj fields)

/-- ZodOptional semantics of .optional(), applied on top of each defaulted
field schema inside SessionConfigBaseSchema (schemas.ts lines 176 to 189):
ZodOptional short-circuits an undefined input to a missing value before the
inner ZodDefault is consulted, so an omitted field stays absent in the parsed
output. -/
def NumSchema.parseOptional (s : NumSchema) (v : JSValue) : Option (Option ℚ) :=
  match v with
  | JSValue.undef => some none
  | JSValue.num q => (s.parse (JSValue.num q)).map some
  | JSValue.nan => (s.parse JSValue.nan).map some
  | JSValue.str s' => (s.parse (JSValue.str s')).map some
  | JSValue.boolean b => (s.parse (JSValue.boolean b)).map some
  | JSValue.null => (s.parse JSValue.null).map some
  | JSValue.obj fields => (s.parse (JSValue.obj fields)).map some

/-- SessionTimeoutSchema (schemas.ts lines 110 to 118), parameterised by the
default constants imported from constants.ts. -/
def SessionTimeoutSchema (d : SessionDefaults) : NumSchema where
  lo := SESSION_CONFIG_LIMITS.MIN_TIMEOUT_MS
  hi := SESSION_CONFIG_LIMITS.MAX_TIMEOUT_MS
  defaultValue := d.timeoutMs

/-- SessionCleanupIntervalSchema (schemas.ts lines 123 to 131). -/
def SessionCleanupIntervalSchema (d : SessionDefaults) : NumSchema where
  lo := SESSION_CONFIG_LIMITS.MIN_CLEANUP_INTERVAL_MS
  hi := SESSION_CONFIG_LIMITS.MAX_CLEANUP_INTERVAL_MS
  defaultValue := d.cleanupIntervalMs

/-- SessionKeepAliveIntervalSchema (schemas.ts lines 136 to 144). -/
def SessionKeepAliveIntervalSchema (d : SessionDefaults) : NumSchema where
  lo := SESSION_CONFIG_LIMITS.MIN_KEEP_ALIVE_INTERVAL_MS
  hi := SESSION_CONFIG_LIMITS.MAX_KEEP_ALIVE_INTERVAL_MS
  defaultValue := d.keepAliveIntervalMs

/-- SessionMaxMissedHeartbeatsSchema (schemas.ts lines 149 to 157). -/
def SessionMaxMissedHeartbeatsSchema (d : SessionDefaults) : NumSchema where
  lo := SESSION_CONFIG_LIMITS.MIN_MISSED_HEARTBEATS
  hi := SESSION_CONFIG_LIMITS.MAX_MISSED_HEARTBEATS
  defaultValue := d.maxMissedHeartbeats

/-- SessionMaxCountSchema (schemas.ts lines 162 to 170). -/
def SessionMaxCountSchema (d : SessionDefaults) : NumSchema where
  lo := SESSION_CONFIG_LIMITS.MIN_SESSION_COUNT
  hi := SESSION_CONFIG_LIMITS.MAX_SESSION_COUNT
  defaultValue := d.maxCount

/-- Output type of SessionConfigSchema parsing: every field of the strict
object is optional, and, because .optional() wraps .default(), an omitted
field stays absent rather than being filled with the default. -/
structure ValidatedSessionConfig where
  timeoutMs : Option ℚ
  cleanupIntervalMs : Option ℚ
  keepAliveIntervalMs : Option ℚ
  maxMissedHeartbeats : Option ℚ
  maxCount : Option ℚ
deriving DecidableEq, Repr

/-- Recognized keys of SessionConfigBaseSchema, in declaration order. -/
def sessionConfigKeys : List String :=
  ["timeoutMs", "cleanupIntervalMs", "keepAliveIntervalMs",
   "maxMissedHeartbeats", "maxCount"]

/-- Property access data[key] on a JS object: a key that is absent reads as
undefined, exactly how ZodObject fetches each shape field. -/
def lookupField (fields : List (String × JSValue)) (key : String) : JSValue :=
  match fields.lookup key with
  | some v => v
  | none => JSValue.undef

/-- SessionConfigBaseSchema (schemas.ts lines 176 to 189): a .strict() object
whose five fields each go through the corresponding optional defaulted number
schema. A non-object input fails; .strict() fails on any unrecognized key;
the parse succeeds exactly when every field parse succeeds. -/
def SessionConfigBaseSchemaParse (d : SessionDefaults) :
    JSValue → Option ValidatedSessionConfig
  | JSValue.obj fields =>
    if fields.all (fun kv => sessionConfigKeys.contains kv.1) then
      ((SessionTimeoutSchema d).parseOptional
          (lookupField fields "timeoutMs")).bind fun t =>
      ((SessionCleanupIntervalSchema d).parseOptional
          (lookupField fields "cleanupIntervalMs")).bind fun cl =>
      ((SessionKeepAliveIntervalSchema d).parseOptional
          (lookupField fields "keepAliveIntervalMs")).bind fun ka =>
      ((SessionMaxMissedHeartbeatsSchema d).parseOptional
          (lookupField fields "maxMissedHeartbeats")).bind fun hb =>
      ((SessionMaxCountSchema d).parseOptional
          (lookupField fields "maxCount")).bind fun mc =>
      some ⟨t, cl, ka, hb, mc⟩
    else none
  | JSValue.num _ => none
  | JSValue.nan => none
  | JSValue.str _ => none
  | JSValue.boolean _ => none
  | JSValue.null => none
  | JSValue.undef => none

/-- First refinement of applySessionConfigRefinements (schemas.ts lines 196
to 207): the effective keep-alive interval (provided value, or the default
when the field is absent) must be strictly less than the effective timeout. -/
def keepAliveRefinement (d : SessionDefaults) (c : ValidatedSessionConfig) : Prop :=
  c.keepAliveIntervalMs.getD d.keepAliveIntervalMs < c.timeoutMs.getD d.timeoutMs

instance (d : SessionDefaults) (c : ValidatedSessionConfig) :
    Decidable (keepAliveRefinement d c) := by
  unfold keepAliveRefinement; infer_instance

/-- Second refinement of applySessionConfigRefinements (schemas.ts lines 208
to 219): the effective cleanup interval must not exceed the effective
timeout. -/
def cleanupRefinement (d : SessionDefaults) (c : ValidatedSessionConfig) : Prop :=
  c.cleanupIntervalMs.getD d.cleanupIntervalMs ≤ c.timeoutMs.getD d.timeoutMs

instance (d : SessionDefaults) (c : ValidatedSessionConfig) :
    Decidable (cleanupRefinement d c) := by
  unfold cleanupRefinement; infer_instance

/-- applySessionConfigRefinements (schemas.ts lines 194 to 220): a parsed
configuration passes the cross-field validation exactly when both refinements
hold. -/
def applySessionConfigRefinements (d : SessionDefaults)
    (c : ValidatedSessionConfig) : Prop :=
  keepAliveRefinement d c ∧ cleanupRefinement d c

instance (d : SessionDefaults) (c : ValidatedSessionConfig) :
    Decidable (applySessionConfigRefinements d c) := by
  unfold applySessionConfigRefinements; infer_instance

/-- SessionConfigSchema (schemas.ts line 227): the base schema with the two
cross-field refinements; a value that fails either refinement fails the whole
parse. -/
def SessionConfigSchemaParse (d : SessionDefaults) (v : JSValue) :
    Option ValidatedSessionConfig :=
  (SessionConfigBaseSchemaParse d v).bind fun c =>
    if applySessionConfigRefinements d c then some c else none

/-- parseSessionConfig (schemas.ts lines 322 to 324): SessionConfigSchema
.parse, throwing modelled as returning none. -/
def parseSessionConfig (d : SessionDefaults) (v : JSValue) :
    Option ValidatedSessionConfig :=
  SessionConfigSchemaParse d v

/-- ValidationResult of schemas.ts (lines 299 to 301); the error-detail list
of the failure branch is not needed by any claim and is not modelled. -/
inductive ValidationResult (α : Type) where
  | success (data : α)
  | failure
deriving DecidableEq, Repr

/-- validateSessionConfigSafe (schemas.ts lines 340 to 354): safeParse of
SessionConfigSchema, repackaged as a success or failure result. -/
def validateSessionConfigSafe (d : SessionDefaults) (v : JSValue) :
    ValidationResult ValidatedSessionConfig :=
  match SessionConfigSchemaParse d v with
  | some c => ValidationResult.success c
  | none => ValidationResult.failure

/-- SessionIdSchema (schemas.ts lines 238 to 244): a string of length at
least 1 and at most 256; any non-string input is rejected. -/
def SessionIdSchemaParse : JSValue → Option String
  | JSValue.str s => if 1 ≤ s.length ∧ s.length ≤ 256 then some s else none
  | JSValue.num _ => none
  | JSValue.nan => none
  | JSValue.boolean _ => none
  | JSValue.null => none
  | JSValue.undef => none
  | JSValue.obj _ => none

/-- parseSessionId (schemas.ts lines 363 to 365). -/
def parseSessionId (v : JSValue) : Option String :=
  SessionIdSchemaParse v

/-- validateSessionIdSafe (schemas.ts lines 373 to 387). -/
def validateSessionIdSafe (v : JSValue) : ValidationResult String :=
  match SessionIdSchemaParse v with
  | some s => ValidationResult.success s
  | none => ValidationResult.failure

/-- isValidTimeout (schemas.ts lines 429 to 431):
SessionTimeoutSchema.safeParse(value).success. The schema here is the bare
defaulted schema, without the .optional() wrapper used inside the object. -/
def isValidTimeout (d : SessionDefaults) (v : JSValue) : Bool :=
  ((SessionTimeoutSchema d).parse v).isSome

/-- isValidCleanupInterval (schemas.ts lines 436 to 438). -/
def isValidCleanupInterval (d : SessionDefaults) (v : JSValue) : Bool :=
  ((SessionCleanupIntervalSchema d).parse v).isSome

/-- isValidKeepAliveInterval (schemas.ts lines 443 to 445). -/
def isValidKeepAliveInterval (d : SessionDefaults) (v : JSValue) : Bool :=
  ((SessionKeepAliveIntervalSchema d).parse v).isSome

/-- isValidMaxMissedHeartbeats (schemas.ts lines 450 to 452). -/
def isValidMaxMissedHeartbeats (d : SessionDefaults) (v : JSValue) : Bool :=
  ((SessionMaxMissedHeartbeatsSchema d).parse v).isSome

/-- isValidMaxCount (schemas.ts lines 457 to 459). -/
def isValidMaxCount (d : SessionDefaults) (v : JSValue) : Bool :=
  ((SessionMaxCountSchema d).parse v).isSome

/-- isValidSessionId (schemas.ts lines 464 to 466). -/
def isValidSessionId (v : JSValue) : Bool :=
  (SessionIdSchemaParse v).isSome

/-- Digit-string reading underlying the JavaScript Number coercion: a
non-empty all-digit character list reads as the decimal value, anything else
as no value. -/
def digitsToNat : List Char → Option ℕ
  | [] => none
  | cs => cs.foldl
      (fun acc c =>
        acc.bind fun n => if c.isDigit then some (n * 10 + (c.toNat - 48)) else none)
      (some 0)

/-- JavaScript Number coercion used by z.coerce.number() in env.ts, restricted
to the inputs the environment surface can provide (environment variables are
strings; an unset variable is undefined and handled by ZodDefault before the
coercion runs). Decimal integer numerals, optionally negated, convert to
their value; other strings are modelled as converting to NaN, which
z.number() then rejects. -/
def coerceNumber (s : String) : Option ℚ :=
  match s.data with
  | '-' :: rest => (digitsToNat rest).map fun n => -(n : ℚ)
  | cs => (digitsToNat cs).map fun n => (n : ℚ)

/-- MCP_SESSION_TIMEOUT_MS field of frameworkEnvSchema (env.ts line 303):
z.coerce.number().min(60000).default(30 * 60 * 1000). The schema imposes a
lower bound only; it has no .max() and no .int() check. An unset variable
takes the default 30 * 60 * 1000 = 1800000. -/
def envSessionTimeoutParse (v : Option String) : Option ℚ :=
  match v with
  | none => some 1800000
  | some s =>
    match coerceNumber s with
    | some q => if 60000 ≤ q then some q else none
    | none => none

/-- MCP_LEGACY_SSE_ENABLED field of frameworkEnvSchema (env.ts lines 269 to
272) on a string environment variable: the transform accepts the string and
compares its lowercasing with "true"; an unset variable defaults to false. -/
def envLegacySseEnabledParse (v : Option String) : Bool :=
  match v with
  | none => false
  | some s => s.toLower == "true"

/-- Modelled from the spec: TransportSessionManager construction, whose
module (src/server/session/index.ts and its manager implementation) is not in
the repository snapshot under src/; only its caller createExpressApp
(http-server.ts lines 68 to 72) is. Spec section 6 states that the
configuration surface, including the timeout, is validated against the
section 3 bounds before the server starts and that invalid values abort
startup, and section 9 calls for a single validating factory at startup; the
validation itself is the in-source parseSessionConfig. Construction with a
timeout is therefore modelled as parseSessionConfig applied to the
single-field configuration object createExpressApp passes, with none standing
for the thrown validation error that aborts startup. -/
def TransportSessionManagerInit (d : SessionDefaults) (timeoutMs : ℚ) :
    Option ValidatedSessionConfig :=
  parseSessionConfig d (JSValue.obj [("timeoutMs", JSValue.num timeoutMs)])

/-- Startup path of the session timeout (http-server.ts lines 68 to 72):
createExpressApp runs parseFrameworkEnv and hands MCP_SESSION_TIMEOUT_MS to
the TransportSessionManager constructor; either stage failing aborts startup
before app.listen is reached. -/
def startupSessionTimeout (d : SessionDefaults) (envVar : Option String) :
    Option ValidatedSessionConfig :=
  (envSessionTimeoutParse envVar).bind (TransportSessionManagerInit d)

/-- Security middleware installed on the /mcp endpoint, named after the
imports of http-server.ts (lines 42 to 49). -/
inductive FilterCheckId where
  | dnsRebindingProtection
  | rateLimiter
  | protocolVersion
  | acceptHeader
  | contentType
  | jsonRpc
deriving DecidableEq, Repr

/-- Middleware stack of the /mcp endpoint in the order createExpressApp
mounts it (http-server.ts lines 101 to 106): DNS rebinding protection, rate
limiting, protocol version, accept header, content type, JSON-RPC shape. -/
def mcpFilterChain : List FilterCheckId :=
  [FilterCheckId.dnsRebindingProtection, FilterCheckId.rateLimiter,
   FilterCheckId.protocolVersion, FilterCheckId.acceptHeader,
   FilterCheckId.contentType, FilterCheckId.jsonRpc]

/-- Outcome of the /mcp middleware stack for one request: either some check
terminated the request with its rejection status, or the request fell through
to the streamable-HTTP router's session logic. -/
inductive McpOutcome where
  | rejected (check : FilterCheckId) (status : Nat)
  | sessionLogic
deriving DecidableEq, Repr

/-- Express middleware semantics for the chain: each middleware, per the
filter-chain contract of spec section 4.5, either passes the request through
unchanged (calls next) or terminates it immediately with a status; the
individual rule contents are external collaborators, so each check's verdict
on the request at hand is a parameter. The first check to reject wins and
later checks never run. -/
def runMiddlewareStack (verdict : FilterCheckId → Option Nat) :
    List FilterCheckId → McpOutcome
  | [] => McpOutcome.sessionLogic
  | c :: rest =>
    match verdict c with
    | some status => McpOutcome.rejected c status
    | none => runMiddlewareStack verdict rest

/-- Handling of one request to the /mcp endpoint (http-server.ts lines 101 to
109): the six security middlewares run in mount order, and only a request
that every one of them passes reaches createStreamableHttpRouter's session
logic. -/
def handleMcpRequest (verdict : FilterCheckId → Option Nat) : McpOutcome :=
  runMiddlewareStack verdict mcpFilterChain

/-- Routes under the legacy SSE router's surface (http-server.ts lines 12 to
15): the notification stream, the stream-open endpoint and the message
submission endpoint. -/
inductive SseRoute where
  | mcpMessage
  | sseOpen
  | sseMessage
deriving DecidableEq, Repr

/-- Session registry state visible to the legacy router, reduced to the list
of session ids it holds. -/
structure SessionRegistry where
  sessions : List String
deriving DecidableEq, Repr

/-- Modelled from the spec: createSseRouter, whose module (src/server/sse) is
not in the repository snapshot under src/; only its mounting site
(http-server.ts lines 88 to 97, with the comment "Always mount the router -
it returns 501 if feature is disabled") is. Per spec section 4.4, when the
feature flag is disabled every route under the router's surface replies with
the fixed not-implemented status 501 and leaves the registry untouched; when
enabled, opening the stream endpoint creates a session (the submission and
notification endpoints' enabled behaviour beyond leaving a looked-up registry
unchanged is not needed by any claim and is not modelled further). -/
def sseRouterHandle (enabled : Bool) (freshId : String) (route : SseRoute)
    (reg : SessionRegistry) : Nat × SessionRegistry :=
  if enabled then
    match route with
    | SseRoute.sseOpen => (200, ⟨freshId :: reg.sessions⟩)
    | SseRoute.mcpMessage => (200, reg)
    | SseRoute.sseMessage => (200, reg)
  else (501, reg)

/-- Steps of the graceful shutdown handler, in the vocabulary of
http-server.ts lines 149 to 164: the awaited completion of
sessionManager.closeAll(), the awaited completion of closeAllSseSessions()
when legacy SSE is enabled, the server.close(...) call that stops the
listener, the completion of that close (which runs the callback), and
process.exit(0) issued inside the callback. -/
inductive ShutdownEvent where
  | closeAllSessions
  | closeAllSse
  | serverCloseStarted
  | serverClosed
  | processExit
deriving DecidableEq, Repr

/-- Trace of the shutdown handler registered for SIGTERM and SIGINT
(http-server.ts lines 150 to 161): await sessionManager.closeAll(); if
legacy SSE is enabled, await closeAllSseSessions(); then server.close with a
callback that calls process.exit(0) once the listener has closed. -/
def shutdownTrace (legacyEnabled : Bool) : List ShutdownEvent :=
  [ShutdownEvent.closeAllSessions]
    ++ (if legacyEnabled then [ShutdownEvent.closeAllSse] else [])
    ++ [ShutdownEvent.serverCloseStarted, ShutdownEvent.serverClosed,
        ShutdownEvent.processExit]

/-- Factored forms of the large limits exactly as schemas.ts writes them:
five years, one hour and five minutes in milliseconds. -/
theorem SESSION_CONFIG_LIMITS_products :
    SESSION_CONFIG_LIMITS.MAX_TIMEOUT_MS = 5 * 365 * 24 * 60 * 60 * 1000 ∧
    SESSION_CONFIG_LIMITS.MAX_CLEANUP_INTERVAL_MS = 60 * 60 * 1000 ∧
    SESSION_CONFIG_LIMITS.MAX_KEEP_ALIVE_INTERVAL_MS = 5 * 60 * 1000 := by
  refine ⟨?_, ?_, ?_⟩ <;> norm_num [SESSION_CONFIG_LIMITS]

/-- Rational is an integer exactly when its reduced denominator is 1. -/
theorem rat_den_one_iff_intCast (q : ℚ) : q.den = 1 ↔ ∃ n : ℤ, q = (n : ℚ) := by
  constructor
  · intro h
    exact ⟨q.num, ((Rat.den_eq_one_iff q).mp h).symm⟩
  · rintro ⟨n, rfl⟩
    exact Rat.den_intCast n

/-- ZodDefault pass-through: on any value other than undefined, the defaulted
schema behaves as its inner checks. -/
theorem NumSchema_parse_of_ne_undef (s : NumSchema) {v : JSValue}
    (hv : v ≠ JSValue.undef) : s.parse v = s.checks v := by
  cases v <;> first | exact absurd rfl hv | rfl

/-- ZodOptional pass-through: on any value other than undefined, the optional
schema wraps the defaulted schema's answer. -/
theorem NumSchema_parseOptional_of_ne_undef (s : NumSchema) {v : JSValue}
    (hv : v ≠ JSValue.undef) : s.parseOptional v = (s.checks v).map some := by
  cases v <;> first | exact absurd rfl hv | rfl

/-- Characterization of the numeric field checks: a value passes exactly when
it is an integer number inside the schema's closed interval. -/
theorem NumSchema_checks_isSome_iff (s : NumSchema) (v : JSValue) :
    (s.checks v).isSome = true ↔
      ∃ n : ℤ, v = JSValue.num (n : ℚ) ∧ s.lo ≤ (n : ℚ) ∧ (n : ℚ) ≤ s.hi := by
  cases v with
  | num q =>
    rw [NumSchema.checks]
    split
    case isTrue h =>
      obtain ⟨hden, hlo, hhi⟩ := h
      obtain ⟨n, rfl⟩ := (rat_den_one_iff_intCast q).mp hden
      simp only [Option.isSome_some, true_iff]
      exact ⟨n, rfl, hlo, hhi⟩
    case isFalse h =>
      simp only [Option.isSome_none, Bool.false_eq_true, false_iff]
      rintro ⟨n, hnum, hlo, hhi⟩
      injection hnum with hq
      subst hq
      exact h ⟨Rat.den_intCast n, hlo, hhi⟩
  | nan =>
    rw [NumSchema.checks]
    simp only [Option.isSome_none, Bool.false_eq_true, false_iff]
    rintro ⟨n, hnum, -, -⟩
    exact JSValue.noConfusion hnum
  | str s' =>
    rw [NumSchema.checks]
    simp only [Option.isSome_none, Bool.false_eq_true, false_iff]
    rintro ⟨n, hnum, -, -⟩
    exact JSValue.noConfusion hnum
  | boolean b =>
    rw [NumSchema.checks]
    simp only [Option.isSome_none, Bool.false_eq_true, false_iff]
    rintro ⟨n, hnum, -, -⟩
    exact JSValue.noConfusion hnum
  | null =>
    rw [NumSchema.checks]
    simp only [Option.isSome_none, Bool.false_eq_true, false_iff]
    rintro ⟨n, hnum, -, -⟩
    exact JSValue.noConfusion hnum
  | undef =>
    rw [NumSchema.checks]
    simp only [Option.isSome_none, Bool.false_eq_true, false_iff]
    rintro ⟨n, hnum, -, -⟩
    exact JSValue.noConfusion hnum
  | obj fields =>
    rw [NumSchema.checks]
    simp only [Option.isSome_none, Bool.false_eq_true, false_iff]
    rintro ⟨n, hnum, -, -⟩
    exact JSValue.noConfusion hnum

/-- With a successful base parse, the refined schema reduces to the
refinement filter on the base result. -/
theorem schemaParse_with_base {d : SessionDefaults} {v : JSValue}
    {c : ValidatedSessionConfig}
    (h : SessionConfigBaseSchemaParse d v = some c) :
    SessionConfigSchemaParse d v =
      if applySessionConfigRefinements d c then some c else none := by
  unfold SessionConfigSchemaParse
  rw [h]
  rfl

/-- A successful full parse implies the base parse succeeded with the same
output. -/
theorem parseSessionConfig_imp_base {d : SessionDefaults} {v : JSValue}
    {c : ValidatedSessionConfig} (h : parseSessionConfig d v = some c) :
    SessionConfigBaseSchemaParse d v = some c := by
  unfold parseSessionConfig SessionConfigSchemaParse at h
  cases hb : SessionConfigBaseSchemaParse d v with
  | none => rw [hb] at h; exact Option.noConfusion h
  | some c' =>
    rw [hb] at h
    rw [Option.some_bind] at h
    split at h
    · exact h
    · exact Option.noConfusion h

/-- Inversion of the strict object parse: a successful base parse means the
input was an object with only recognized keys and each field parsed to the
corresponding component of the output. -/
theorem baseParse_obj_inv {d : SessionDefaults} {fields : List (String × JSValue)}
    {c : ValidatedSessionConfig}
    (h : SessionConfigBaseSchemaParse d (JSValue.obj fields) = some c) :
    fields.all (fun kv => sessionConfigKeys.contains kv.1) = true ∧
    (SessionTimeoutSchema d).parseOptional (lookupField fields "timeoutMs") =
      some c.timeoutMs ∧
    (SessionCleanupIntervalSchema d).parseOptional
      (lookupField fields "cleanupIntervalMs") = some c.cleanupIntervalMs ∧
    (SessionKeepAliveIntervalSchema d).parseOptional
      (lookupField fields "keepAliveIntervalMs") = some c.keepAliveIntervalMs ∧
    (SessionMaxMissedHeartbeatsSchema d).parseOptional
      (lookupField fields "maxMissedHeartbeats") = some c.maxMissedHeartbeats ∧
    (SessionMaxCountSchema d).parseOptional (lookupField fields "maxCount") =
      some c.maxCount := by
  rw [SessionConfigBaseSchemaParse] at h
  split at h
  case _ hall =>
    cases ht : (SessionTimeoutSchema d).parseOptional (lookupField fields "timeoutMs") with
    | none => rw [ht, Option.none_bind] at h; exact Option.noConfusion h
    | some t =>
    rw [ht, Option.some_bind] at h
    cases hcl : (SessionCleanupIntervalSchema d).parseOptional
        (lookupField fields "cleanupIntervalMs") with
    | none => rw [hcl, Option.none_bind] at h; exact Option.noConfusion h
    | some cl =>
    rw [hcl, Option.some_bind] at h
    cases hka : (SessionKeepAliveIntervalSchema d).parseOptional
        (lookupField fields "keepAliveIntervalMs") with
    | none => rw [hka, Option.none_bind] at h; exact Option.noConfusion h
    | some ka =>
    rw [hka, Option.some_bind] at h
    cases hhb : (SessionMaxMissedHeartbeatsSchema d).parseOptional
        (lookupField fields "maxMissedHeartbeats") with
    | none => rw [hhb, Option.none_bind] at h; exact Option.noConfusion h
    | some hb =>
    rw [hhb, Option.some_bind] at h
    cases hmc : (SessionMaxCountSchema d).parseOptional (lookupField fields "maxCount") with
    | none => rw [hmc, Option.none_bind] at h; exact Option.noConfusion h
    | some mc =>
    rw [hmc, Option.some_bind] at h
    cases h
    exact ⟨hall, rfl, rfl, rfl, rfl, rfl⟩
  case _ hall =>
    exact Option.noConfusion h

/-- Claim C1: session-config validation accepts a provided (non-undefined)
timeoutMs value if and only if it is an integer between 60,000 and
157,680,000,000 inclusive; consequently any configuration parseSessionConfig
accepts carries, when its timeoutMs field was provided, an integer in that
range. -/
theorem c1_timeout_validation (d : SessionDefaults) (v : JSValue)
    (hv : v ≠ JSValue.undef) :
    (((SessionTimeoutSchema d).parseOptional v).isSome = true ↔
      ∃ n : ℤ, v = JSValue.num (n : ℚ) ∧ (60000 : ℤ) ≤ n ∧ n ≤ 157680000000) ∧
    ∀ (fields : List (String × JSValue)) (c : ValidatedSessionConfig),
      parseSessionConfig d (JSValue.obj fields) = some c →
      lookupField fields "timeoutMs" = v →
      ∃ n : ℤ, v = JSValue.num (n : ℚ) ∧ (60000 : ℤ) ≤ n ∧ n ≤ 157680000000 := by
  have hm : (((SessionTimeoutSchema d).checks v).map some).isSome =
      ((SessionTimeoutSchema d).checks v).isSome := by
    cases (SessionTimeoutSchema d).checks v <;> rfl
  have hiff : ((SessionTimeoutSchema d).parseOptional v).isSome = true ↔
      ∃ n : ℤ, v = JSValue.num (n : ℚ) ∧ (60000 : ℤ) ≤ n ∧ n ≤ 157680000000 := by
    rw [NumSchema_parseOptional_of_ne_undef _ hv, hm, NumSchema_checks_isSome_iff]
    constructor
    · rintro ⟨n, rfl, hlo, hhi⟩
      refine ⟨n, rfl, ?_, ?_⟩
      · have hlo' : (60000 : ℚ) ≤ (n : ℚ) := hlo
        exact_mod_cast hlo'
      · have hhi' : (n : ℚ) ≤ (157680000000 : ℚ) := hhi
        exact_mod_cast hhi'
    · rintro ⟨n, rfl, hlo, hhi⟩
      refine ⟨n, rfl, ?_, ?_⟩
      · show (60000 : ℚ) ≤ (n : ℚ)
        exact_mod_cast hlo
      · show (n : ℚ) ≤ (157680000000 : ℚ)
        exact_mod_cast hhi
  refine ⟨hiff, ?_⟩
  intro fields c hparse hlook
  have hbase := parseSessionConfig_imp_base hparse
  obtain ⟨-, ht, -, -, -, -⟩ := baseParse_obj_inv hbase
  rw [hlook] at ht
  exact hiff.mp (by rw [ht]; rfl)

/-- Witness for C1 at the concrete provided value 1,800,000, which the
timeout field schema accepts. -/
theorem c1_timeout_validation_witness :
    ((SessionTimeoutSchema specDefaults).parseOptional
      (JSValue.num 1800000)).isSome = true :=
  (c1_timeout_validation specDefaults (JSValue.num 1800000)
    (fun h => JSValue.noConfusion h)).1.mpr
    ⟨1800000,
      (congrArg JSValue.num
        (by decide : ((1800000 : ℤ) : ℚ) = (1800000 : ℚ))).symm,
      by decide, by decide⟩

/-- Claim C2: for a configuration whose per-field values individually pass
(the base parse succeeds), the full validation succeeds exactly when the
effective keep-alive interval is strictly below the effective timeout and the
effective cleanup interval does not exceed the effective timeout, and fails
exactly when the effective keep-alive interval is at least the effective
timeout or the effective cleanup interval strictly exceeds it; effective
values are the provided field or the default when omitted. -/
theorem c2_cross_field_validation (d : SessionDefaults) (v : JSValue)
    (c : ValidatedSessionConfig)
    (hbase : SessionConfigBaseSchemaParse d v = some c) :
    (parseSessionConfig d v = some c ↔
      (c.keepAliveIntervalMs.getD d.keepAliveIntervalMs <
          c.timeoutMs.getD d.timeoutMs ∧
        c.cleanupIntervalMs.getD d.cleanupIntervalMs ≤
          c.timeoutMs.getD d.timeoutMs)) ∧
    (parseSessionConfig d v = none ↔
      (c.keepAliveIntervalMs.getD d.keepAliveIntervalMs ≥
          c.timeoutMs.getD d.timeoutMs ∨
        c.cleanupIntervalMs.getD d.cleanupIntervalMs >
          c.timeoutMs.getD d.timeoutMs)) := by
  have hred : parseSessionConfig d v =
      if applySessionConfigRefinements d c then some c else none := by
    unfold parseSessionConfig
    exact schemaParse_with_base hbase
  by_cases hr : applySessionConfigRefinements d c
  · rw [if_pos hr] at hred
    rw [hred]
    constructor
    · exact ⟨fun _ => ⟨hr.1, hr.2⟩, fun _ => rfl⟩
    · constructor
      · intro h
        exact Option.noConfusion h
      · rintro (hge | hgt)
        · exact absurd hr.1 (not_lt.mpr hge)
        · exact absurd hr.2 (not_le.mpr hgt)
  · rw [if_neg hr] at hred
    rw [hred]
    constructor
    · constructor
      · intro h
        exact Option.noConfusion h
      · intro hconj
        exact absurd (⟨hconj.1, hconj.2⟩ : applySessionConfigRefinements d c) hr
    · refine ⟨fun _ => ?_, fun _ => rfl⟩
      unfold applySessionConfigRefinements at hr
      rcases not_and_or.mp hr with hk | hc
      · exact Or.inl (not_lt.mp hk)
      · exact Or.inr (not_le.mp hc)

/-- Witness for C2: a configuration whose fields are individually in bounds
but whose keep-alive interval equals its timeout is rejected. -/
theorem c2_cross_field_validation_witness :
    parseSessionConfig specDefaults
      (JSValue.obj [("timeoutMs", JSValue.num 60000),
                    ("keepAliveIntervalMs", JSValue.num 60000)]) = none :=
  (c2_cross_field_validation specDefaults
      (JSValue.obj [("timeoutMs", JSValue.num 60000),
                    ("keepAliveIntervalMs", JSValue.num 60000)])
      ⟨some 60000, none, some 60000, none, none⟩ (by decide)).2.mpr
    (Or.inl (by decide))

/-- Claim C3: a session timeout supplied through the configuration surface
that lies outside the bounds of the configuration table, in particular any
numeric value above 157,680,000,000 ms, makes the startup path fail before
the server starts: the environment value flows from parseFrameworkEnv into
the TransportSessionManager construction inside createExpressApp, which
validates it and aborts startup before app.listen is reached. -/
theorem c3_oversized_timeout_aborts_startup (d : SessionDefaults) (s : String)
    (q : ℚ) (hc : coerceNumber s = some q)
    (hq : SESSION_CONFIG_LIMITS.MAX_TIMEOUT_MS < q) :
    startupSessionTimeout d (some s) = none := by
  have henv : envSessionTimeoutParse (some s) =
      if (60000 : ℚ) ≤ q then some q else none := by
    simp only [envSessionTimeoutParse, hc]
  unfold startupSessionTimeout
  rw [henv]
  by_cases hmin : (60000 : ℚ) ≤ q
  · rw [if_pos hmin, Option.some_bind]
    unfold TransportSessionManagerInit parseSessionConfig SessionConfigSchemaParse
    have hopt : (SessionTimeoutSchema d).parseOptional (JSValue.num q) = none := by
      show ((SessionTimeoutSchema d).parse (JSValue.num q)).map some = none
      rw [NumSchema_parse_of_ne_undef _ (fun h => JSValue.noConfusion h),
        NumSchema.checks, if_neg]
      · rfl
      · rintro ⟨-, -, hle⟩
        exact absurd hle (not_le.mpr hq)
    have hlook : lookupField [("timeoutMs", JSValue.num q)] "timeoutMs" =
        JSValue.num q := rfl
    have hall : ([("timeoutMs", JSValue.num q)].all
        fun kv => sessionConfigKeys.contains kv.1) = true := rfl
    have hbase : SessionConfigBaseSchemaParse d
        (JSValue.obj [("timeoutMs", JSValue.num q)]) = none := by
      rw [SessionConfigBaseSchemaParse, if_pos hall, hlook, hopt, Option.none_bind]
    rw [hbase, Option.none_bind]
  · rw [if_neg hmin, Option.none_bind]

/-- Witness for C3 at the concrete environment value one above the maximum
timeout. -/
theorem c3_oversized_timeout_aborts_startup_witness :
    startupSessionTimeout specDefaults (some "157680000001") = none :=
  c3_oversized_timeout_aborts_startup specDefaults "157680000001" 157680000001
    (by decide) (by decide)

/-- Claim C4: session-identifier validation accepts a value exactly when it
is a string of length 1 to 256; the safe variant and the guard agree with the
parsing function, so the empty string, over-long strings and non-strings are
rejected by all three entry points. -/
theorem c4_session_id_validation (v : JSValue) :
    ((parseSessionId v).isSome = true ↔
      ∃ s : String, v = JSValue.str s ∧ 1 ≤ s.length ∧ s.length ≤ 256) ∧
    isValidSessionId v = (parseSessionId v).isSome ∧
    (validateSessionIdSafe v = ValidationResult.failure ↔
      parseSessionId v = none) := by
  refine ⟨?_, rfl, ?_⟩
  · unfold parseSessionId
    cases v with
    | str s =>
      rw [SessionIdSchemaParse]
      split
      case isTrue h =>
        simp only [Option.isSome_some, true_iff]
        exact ⟨s, rfl, h.1, h.2⟩
      case isFalse h =>
        simp only [Option.isSome_none, Bool.false_eq_true, false_iff]
        rintro ⟨s', hs, h1, h2⟩
        injection hs with hss
        subst hss
        exact h ⟨h1, h2⟩
    | num q =>
      rw [SessionIdSchemaParse]
      simp only [Option.isSome_none, Bool.false_eq_true, false_iff]
      rintro ⟨s', hs, -, -⟩
      exact JSValue.noConfusion hs
    | nan =>
      rw [SessionIdSchemaParse]
      simp only [Option.isSome_none, Bool.false_eq_true, false_iff]
      rintro ⟨s', hs, -, -⟩
      exact JSValue.noConfusion hs
    | boolean b =>
      rw [SessionIdSchemaParse]
      simp only [Option.isSome_none, Bool.false_eq_true, false_iff]
      rintro ⟨s', hs, -, -⟩
      exact JSValue.noConfusion hs
    | null =>
      rw [SessionIdSchemaParse]
      simp only [Option.isSome_none, Bool.false_eq_true, false_iff]
      rintro ⟨s', hs, -, -⟩
      exact JSValue.noConfusion hs
    | undef =>
      rw [SessionIdSchemaParse]
      simp only [Option.isSome_none, Bool.false_eq_true, false_iff]
      rintro ⟨s', hs, -, -⟩
      exact JSValue.noConfusion hs
    | obj fields =>
      rw [SessionIdSchemaParse]
      simp only [Option.isSome_none, Bool.false_eq_true, false_iff]
      rintro ⟨s', hs, -, -⟩
      exact JSValue.noConfusion hs
  · unfold validateSessionIdSafe parseSessionId
    cases hp : SessionIdSchemaParse v with
    | none => simp
    | some s =>
      constructor
      · intro h
        exact ValidationResult.noConfusion h
      · intro h
        exact Option.noConfusion h

/-- Claim C5: with the session timeout omitted, the timeout schema and the
environment configuration both produce exactly 1,800,000 ms: the standalone
session timeout schema fills in the default 1,800,000, the environment
schema's default is 1,800,000, and the startup path hands the session
manager a configuration carrying timeoutMs = 1,800,000. -/
theorem c5_timeout_default_1800000 :
    (SessionTimeoutSchema specDefaults).parse JSValue.undef = some 1800000 ∧
    specDefaults.timeoutMs = 1800000 ∧
    envSessionTimeoutParse none = some 1800000 ∧
    startupSessionTimeout specDefaults none =
      some ⟨some 1800000, none, none, none, none⟩ := by
  refine ⟨by decide, by decide, by decide, by decide⟩

/-- Claim C6: in the shutdown handler for SIGTERM and SIGINT, the awaited
completion of sessionManager.closeAll() — and, when legacy SSE is enabled,
of closeAllSseSessions() — happens before server.close() begins, and
process.exit(0) runs only inside the close callback, after the listener has
closed; the exit is the last step of the trace. -/
theorem c6_shutdown_ordering (legacyEnabled : Bool) :
    (shutdownTrace legacyEnabled).indexOf ShutdownEvent.closeAllSessions <
      (shutdownTrace legacyEnabled).indexOf ShutdownEvent.serverCloseStarted ∧
    (legacyEnabled = true →
      (shutdownTrace legacyEnabled).indexOf ShutdownEvent.closeAllSse <
        (shutdownTrace legacyEnabled).indexOf ShutdownEvent.serverCloseStarted) ∧
    (shutdownTrace legacyEnabled).indexOf ShutdownEvent.serverCloseStarted <
      (shutdownTrace legacyEnabled).indexOf ShutdownEvent.serverClosed ∧
    (shutdownTrace legacyEnabled).indexOf ShutdownEvent.serverClosed <
      (shutdownTrace legacyEnabled).indexOf ShutdownEvent.processExit ∧
    (shutdownTrace legacyEnabled).getLast? = some ShutdownEvent.processExit := by
  cases legacyEnabled <;> decide

/-- Witness for C6 with legacy SSE enabled: the legacy drain also completes
before the listener close begins. -/
theorem c6_shutdown_ordering_witness :
    (shutdownTrace true).indexOf ShutdownEvent.closeAllSse <
      (shutdownTrace true).indexOf ShutdownEvent.serverCloseStarted :=
  (c6_shutdown_ordering true).2.1 rfl

/-- Claim C7: with the legacy SSE feature flag disabled (also the state of an
unset MCP_LEGACY_SSE_ENABLED variable), every route under the legacy
router's surface replies with status 501 — not 404 — and the session registry
is returned unchanged. -/
theorem c7_legacy_disabled_not_implemented (freshId : String) (route : SseRoute)
    (reg : SessionRegistry) :
    sseRouterHandle false freshId route reg = (501, reg) ∧
    (sseRouterHandle false freshId route reg).1 ≠ 404 ∧
    (sseRouterHandle false freshId route reg).2 = reg ∧
    envLegacySseEnabledParse none = false := by
  have h404 : (501 : ℕ) ≠ 404 := by decide
  exact ⟨rfl, h404, rfl, rfl⟩

/-- Falling through the whole middleware list is equivalent to every
middleware passing the request. -/
theorem runMiddlewareStack_sessionLogic_iff (verdict : FilterCheckId → Option Nat)
    (l : List FilterCheckId) :
    runMiddlewareStack verdict l = McpOutcome.sessionLogic ↔
      ∀ c ∈ l, verdict c = none := by
  induction l with
  | nil => simp [runMiddlewareStack]
  | cons hd tl ih =>
    rw [runMiddlewareStack]
    cases hv : verdict hd with
    | some st => simp [hv, List.forall_mem_cons]
    | none => simp [hv, List.forall_mem_cons, ih]

/-- A rejection outcome names a middleware of the list, carries that
middleware's own verdict, and every middleware mounted before it passed
the request. -/
theorem runMiddlewareStack_rejected (verdict : FilterCheckId → Option Nat)
    (l : List FilterCheckId) (c : FilterCheckId) (status : Nat)
    (h : runMiddlewareStack verdict l = McpOutcome.rejected c status) :
    c ∈ l ∧ verdict c = some status ∧
      ∀ c' ∈ l.take (List.indexOf c l), verdict c' = none := by
  induction l with
  | nil => exact McpOutcome.noConfusion h
  | cons hd tl ih =>
    rw [runMiddlewareStack] at h
    cases hv : verdict hd with
    | some st =>
      rw [hv] at h
      injection h with h1 h2
      subst h1
      subst h2
      refine ⟨List.mem_cons_self _ _, hv, ?_⟩
      rw [List.indexOf_cons_self]
      intro c' hc'
      exact absurd hc' (List.not_mem_nil c')
    | none =>
      rw [hv] at h
      obtain ⟨hmem, hvc, hprev⟩ := ih h
      have hne : hd ≠ c := by
        intro he
        rw [← he, hv] at hvc
        exact Option.noConfusion hvc
      refine ⟨List.mem_cons_of_mem _ hmem, hvc, ?_⟩
      rw [List.indexOf_cons_ne _ hne, List.take_succ_cons]
      intro c' hc'
      rcases List.mem_cons.mp hc' with rfl | hc'
      · exact hv
      · exact hprev c' hc'

/-- Claim C8: the /mcp middleware stack is mounted in exactly the order DNS
rebinding protection, rate limiter, protocol version, accept header, content
type, JSON-RPC validation; a request reaches the streamable router's session
logic exactly when every check passes, and a request rejected by some check
is answered by the earliest failing check — all mounted before it passed —
and never reaches session logic. -/
theorem c8_filter_chain_gates_session_logic (verdict : FilterCheckId → Option Nat) :
    mcpFilterChain = [FilterCheckId.dnsRebindingProtection, FilterCheckId.rateLimiter,
      FilterCheckId.protocolVersion, FilterCheckId.acceptHeader,
      FilterCheckId.contentType, FilterCheckId.jsonRpc] ∧
    (handleMcpRequest verdict = McpOutcome.sessionLogic ↔
      ∀ c ∈ mcpFilterChain, verdict c = none) ∧
    (∀ c status, handleMcpRequest verdict = McpOutcome.rejected c status →
      c ∈ mcpFilterChain ∧ verdict c = some status ∧
        ∀ c' ∈ mcpFilterChain.take (List.indexOf c mcpFilterChain),
          verdict c' = none) ∧
    (∀ c ∈ mcpFilterChain, verdict c ≠ none →
      handleMcpRequest verdict ≠ McpOutcome.sessionLogic) := by
  refine ⟨rfl, runMiddlewareStack_sessionLogic_iff verdict mcpFilterChain,
    fun c status h => runMiddlewareStack_rejected verdict mcpFilterChain c status h,
    fun c hc hv hs =>
      hv (((runMiddlewareStack_sessionLogic_iff verdict mcpFilterChain).mp hs) c hc)⟩

/-- Witness for C8: a verdict function on which the rate limiter rejects
keeps the request away from session logic. -/
theorem c8_filter_chain_gates_session_logic_witness :
    handleMcpRequest
      (fun c => if c = FilterCheckId.rateLimiter then some 429 else none) ≠
      McpOutcome.sessionLogic :=
  (c8_filter_chain_gates_session_logic
      (fun c => if c = FilterCheckId.rateLimiter then some 429 else none)).2.2.2
    FilterCheckId.rateLimiter (by decide) (by decide)

/-- Claim C9: the strict object schema rejects any configuration object with
an unrecognized key — parseSessionConfig fails and validateSessionConfigSafe
reports failure rather than ignoring the unknown field. -/
theorem c9_unknown_key_rejected (d : SessionDefaults)
    (fields : List (String × JSValue)) (k : String) (v : JSValue)
    (hmem : (k, v) ∈ fields) (hk : k ∉ sessionConfigKeys) :
    parseSessionConfig d (JSValue.obj fields) = none ∧
    validateSessionConfigSafe d (JSValue.obj fields) =
      ValidationResult.failure := by
  have hall : (fields.all fun kv => sessionConfigKeys.contains kv.1) = false := by
    cases hb : fields.all fun kv => sessionConfigKeys.contains kv.1 with
    | false => rfl
    | true =>
      have hcontains := List.all_eq_true.mp hb (k, v) hmem
      exact absurd (by simpa using hcontains) hk
  have hne : ¬ ((fields.all fun kv => sessionConfigKeys.contains kv.1) = true) := by
    rw [hall]
    exact Bool.false_ne_true
  have hbase : SessionConfigBaseSchemaParse d (JSValue.obj fields) = none := by
    rw [SessionConfigBaseSchemaParse, if_neg hne]
  have hschema : SessionConfigSchemaParse d (JSValue.obj fields) = none := by
    unfold SessionConfigSchemaParse
    rw [hbase, Option.none_bind]
  constructor
  · exact hschema
  · unfold validateSessionConfigSafe
    rw [hschema]

/-- Witness for C9: the misspelled key timeout (instead of timeoutMs) makes
the whole configuration fail. -/
theorem c9_unknown_key_rejected_witness :
    parseSessionConfig specDefaults
      (JSValue.obj [("timeout", JSValue.num 1800000)]) = none :=
  (c9_unknown_key_rejected specDefaults [("timeout", JSValue.num 1800000)]
    "timeout" (JSValue.num 1800000) (List.mem_cons_self _ _) (by decide)).1

/-- Claim C10: each numeric helper guard accepts undefined, because the
defaulted schema it wraps substitutes its (in-bounds) default before
checking, while isValidSessionId rejects undefined since the session-id
schema has no default. -/
theorem c10_guard_predicates_on_undefined :
    isValidTimeout specDefaults JSValue.undef = true ∧
    isValidCleanupInterval specDefaults JSValue.undef = true ∧
    isValidKeepAliveInterval specDefaults JSValue.undef = true ∧
    isValidMaxMissedHeartbeats specDefaults JSValue.undef = true ∧
    isValidMaxCount specDefaults JSValue.undef = true ∧
    isValidSessionId JSValue.undef = false := by
  refine ⟨by decide, by decide, by decide, by decide, by decide, by decide⟩
